import Mathlib

/-!
Verification development for the HTML-to-fillable-PDF converter
(source: src/main.py).  Coordinates are modelled over the rationals;
browser pixel boxes, the px-to-pt scale 72/96 and the pt-space widget
rectangles are all exact rational arithmetic here, mirroring the float
formulas of the source line by line.
-/

namespace HtmlToPdf

/-- Constant CSS_PX_TO_PT of the source: 72.0 / 96.0 = 0.75, converting
CSS pixels to PDF points. -/
def CSS_PX_TO_PT : ℚ := 72 / 96

/-- A4 page width in points as reportlab computes it: 210 mm at 72 / 25.4
points per millimetre. -/
def A4_WIDTH_PT : ℚ := 210 * (72 / (254 / 10))

/-- A4 page height in points as reportlab computes it: 297 mm at 72 / 25.4
points per millimetre (about 841.89). -/
def A4_HEIGHT_PT : ℚ := 297 * (72 / (254 / 10))

/-- Raw data of one interactive element as the page.evaluate script reads
it off the DOM: tag name, the type property, the name / id / placeholder
properties (empty string when absent, matching the JS falsy test), the
bounding client rect, and the options list of a select element. -/
structure RawControl where
  tag : String
  typeAttr : String
  nameAttr : String
  idAttr : String
  placeholder : String
  x : ℚ
  y : ℚ
  width : ℚ
  height : ℚ
  options : Option (List (String × String))
deriving DecidableEq

/-- Field descriptor: one entry of the fields list returned by
render_html_to_pdf and consumed by make_overlay_pdf.  The dict key type of
the source is the field typ here (typ is also the local variable name the
source uses for it). -/
structure FieldDesc where
  tag : String
  typ : String
  name : String
  x : ℚ
  y : ℚ
  width : ℚ
  height : ℚ
  options : Option (List (String × String))
deriving DecidableEq

/-- Name resolution of the extractor script:
el.name or el.id or el.placeholder or (tag + underscore + idx), where the
JS or-chain falls through on the empty string. -/
def resolveName (nameAttr idAttr placeholder tag : String) (idx : Nat) : String :=
  if nameAttr = "" then
    if idAttr = "" then
      if placeholder = "" then tag ++ "_" ++ toString idx
      else placeholder
    else idAttr
  else nameAttr

/-- Building one field descriptor from a raw control at discovery index
idx, as the body of the nodes.map callback does. -/
def mkFieldDesc (idx : Nat) (el : RawControl) : FieldDesc :=
  { tag := el.tag
    typ := el.typeAttr
    name := resolveName el.nameAttr el.idAttr el.placeholder el.tag idx
    x := el.x
    y := el.y
    width := el.width
    height := el.height
    options := if el.tag = "select" then el.options else none }

/-- Recursive worker for the extractor: nodes.map with its running index. -/
def extractFrom (idx : Nat) : List RawControl → List FieldDesc
  | [] => []
  | el :: rest => mkFieldDesc idx el :: extractFrom (idx + 1) rest

/-- Field extraction of render_html_to_pdf: every discovered control, in
document order, turned into a field descriptor; the map callback receives
the 0-based index. -/
def extractFields (els : List RawControl) : List FieldDesc :=
  extractFrom 0 els

/-- Kind of PDF form widget emitted by make_overlay_pdf. -/
inductive WidgetKind
  | checkbox
  | text
deriving DecidableEq

/-- Widget descriptor: what one iteration of the make_overlay_pdf loop
places on the overlay page.  For a checkbox the source passes a single
size, modelled as equal width and height; styled records whether the
styled textfield call succeeded (false means the bare fallback of the
except branch was used). -/
structure Widget where
  name : String
  kind : WidgetKind
  x : ℚ
  y : ℚ
  width : ℚ
  height : ℚ
  styled : Bool
deriving DecidableEq

/-- Line x_pt = f[x] * CSS_PX_TO_PT of the source. -/
def x_pt (f : FieldDesc) : ℚ := f.x * CSS_PX_TO_PT

/-- Line h_pt = f[height] * CSS_PX_TO_PT of the source. -/
def h_pt (f : FieldDesc) : ℚ := f.height * CSS_PX_TO_PT

/-- Line w_pt = f[width] * CSS_PX_TO_PT of the source. -/
def w_pt (f : FieldDesc) : ℚ := f.width * CSS_PX_TO_PT

/-- Line y_pt = A4_HEIGHT_PT - (y_pt_css * CSS_PX_TO_PT) - h_pt of the
source, with the page height abstracted as the page-geometry parameter;
note the flip uses the converted height before any minimum-size clamp. -/
def y_pt (pageHeight : ℚ) (f : FieldDesc) : ℚ :=
  pageHeight - f.y * CSS_PX_TO_PT - h_pt f

/-- Minimum-size line for widths: if w_pt < 20 then w_pt = max(w_pt, 40). -/
def sanitizeW (w : ℚ) : ℚ := if w < 20 then max w 40 else w

/-- Minimum-size line for heights: if h_pt < 10 then h_pt = max(h_pt, 14). -/
def sanitizeH (h : ℚ) : ℚ := if h < 10 then max h 14 else h

/-- Body of the make_overlay_pdf loop for one field: convert the box,
flip the vertical axis, apply the minimum-size policy, then emit either a
square checkbox of size min(w_pt, h_pt) when tag is input and the type is
checkbox, or a text field of the full rectangle otherwise.  The styledOk
flag models whether the styled form.textfield call raised (the except arm
keeps the same geometry, only the styling degrades). -/
def mapField (pageHeight : ℚ) (styledOk : Bool) (f : FieldDesc) : Widget :=
  if f.tag = "input" ∧ f.typ = "checkbox" then
    { name := f.name
      kind := WidgetKind.checkbox
      x := x_pt f
      y := y_pt pageHeight f
      width := min (sanitizeW (w_pt f)) (sanitizeH (h_pt f))
      height := min (sanitizeW (w_pt f)) (sanitizeH (h_pt f))
      styled := true }
  else
    { name := f.name
      kind := WidgetKind.text
      x := x_pt f
      y := y_pt pageHeight f
      width := sanitizeW (w_pt f)
      height := sanitizeH (h_pt f)
      styled := styledOk }

/-- The full make_overlay_pdf loop: one widget per field, in order, all
placed on the single overlay page.  styledOk is the oracle telling which
fields the styled textfield construction fails for. -/
def makeOverlay (pageHeight : ℚ) (styledOk : FieldDesc → Bool)
    (fields : List FieldDesc) : List Widget :=
  fields.map fun f => mapField pageHeight (styledOk f) f

/-- Overlay construction at the fixed A4 geometry the program uses. -/
def makeOverlayA4 (styledOk : FieldDesc → Bool) (fields : List FieldDesc) :
    List Widget :=
  makeOverlay A4_HEIGHT_PT styledOk fields

/-- One page of a PDF document as the merger sees it: its media box size
and its stacked content layers. -/
structure Page where
  width : ℚ
  height : ℚ
  content : List String
deriving DecidableEq

/-- PageMerge(page).add(overlay_page).render(): the overlay page content
is stacked onto the base page, whose media box is kept. -/
def compositePage (base over : Page) : Page :=
  { base with content := base.content ++ over.content }

/-- Python list indexing: a non-negative index reads directly, a negative
index reads from the end, and an out-of-range access (the IndexError) is
none. -/
def pyGet {α : Type} (l : List α) (i : Int) : Option α :=
  if i < 0 then
    if 0 ≤ (l.length : Int) + i then l.get? ((l.length : Int) + i).toNat
    else none
  else l.get? i.toNat

/-- The for-loop of merge_pdfs with its running page index i: each base
page is composited with overlay.pages[min(i, len(overlay.pages) - 1)];
none models the run aborting with an uncaught exception. -/
def mergePages (overlay : List Page) (i : Nat) : List Page → Option (List Page)
  | [] => some []
  | p :: rest =>
    match pyGet overlay (min (i : Int) ((overlay.length : Int) - 1)) with
    | none => none
    | some op => (mergePages overlay (i + 1) rest).map
        fun tail => compositePage p op :: tail

/-- Function merge_pdfs on the two in-memory documents: composite every
base page with its clamped overlay page and return the resulting document
(the source then writes it out unchanged). -/
def mergePdfs (base overlay : List Page) : Option (List Page) :=
  mergePages overlay 0 base

/-- File-level view of merge_pdfs: read the base and overlay documents at
their paths, merge, and write the result at the output path only.  A
filesystem is a map from paths to documents; none models a raised
exception (unreadable input or merge failure). -/
def mergeFiles (fs : String → Option (List Page))
    (basePath overlayPath finalPath : String) :
    Option (String → Option (List Page)) :=
  match fs basePath, fs overlayPath with
  | some base, some overlay =>
    (mergePdfs base overlay).map fun out =>
      Function.update fs finalPath (some out)
  | _, _ => none

/-- Sample field of the axis-flip test vector: bbox x 100, y 50, width 200,
height 20 pixels. -/
def fC1 : FieldDesc :=
  { tag := "input", typ := "text", name := "field1",
    x := 100, y := 50, width := 200, height := 20, options := none }

/-- Sample checkbox control. -/
def cbField : FieldDesc :=
  { tag := "input", typ := "checkbox", name := "cb",
    x := 10, y := 10, width := 16, height := 16, options := none }

/-- Sample select control. -/
def selField : FieldDesc :=
  { tag := "select", typ := "", name := "sel",
    x := 10, y := 40, width := 120, height := 24,
    options := some [("a", "Alpha")] }

/-- Sample field whose converted width 30 and height 12 pass the tests of
the minimum-size policy untouched. -/
def fWide : FieldDesc :=
  { tag := "textarea", typ := "", name := "big",
    x := 0, y := 0, width := 40, height := 16, options := none }

/-- Sample zero-size field. -/
def fZero : FieldDesc :=
  { tag := "input", typ := "text", name := "z",
    x := 0, y := 0, width := 0, height := 0, options := none }

/-- Sample field rendered past the first page: top edge at 1200 CSS px. -/
def fOff : FieldDesc :=
  { tag := "input", typ := "text", name := "off",
    x := 0, y := 1200, width := 40, height := 20, options := none }

/-- Sample raw control carrying an explicit name attribute. -/
def rcNamed : RawControl :=
  { tag := "input", typeAttr := "text", nameAttr := "first", idAttr := "",
    placeholder := "", x := 0, y := 0, width := 100, height := 20,
    options := none }

/-- Sample raw control with no name, id or placeholder. -/
def rcBlank : RawControl :=
  { tag := "input", typeAttr := "text", nameAttr := "", idAttr := "",
    placeholder := "", x := 0, y := 120, width := 100, height := 20,
    options := none }

/-- Sample control list whose element at discovery ordinal 4 is blank. -/
def demoControls : List RawControl :=
  [rcNamed, rcNamed, rcNamed, rcNamed, rcBlank]

/-- Sample base pages and overlay page. -/
def pgB1 : Page := { width := 595, height := 842, content := ["base1"] }

def pgB2 : Page := { width := 595, height := 842, content := ["base2"] }

def pgB3 : Page := { width := 595, height := 842, content := ["base3"] }

def pgOv : Page := { width := 595, height := 842, content := ["widgets"] }

/-- Sample filesystem holding a three-page base document and a one-page
overlay document at the paths the program uses. -/
def demoFS : String → Option (List Page) := fun p =>
  if p = "output/base_render.pdf" then some [pgB1, pgB2, pgB3]
  else if p = "output/overlay.pdf" then some [pgOv]
  else none

/-! Helper lemmas shared by the claim theorems. -/

/-- The width clamp yields exactly 40 below the test threshold. -/
theorem sanitizeW_of_lt {w : ℚ} (h : w < 20) : sanitizeW w = 40 := by
  rw [sanitizeW, if_pos h]
  exact max_eq_right (by linarith)

/-- The width clamp leaves values at or above the threshold unchanged. -/
theorem sanitizeW_of_ge {w : ℚ} (h : ¬ w < 20) : sanitizeW w = w := by
  rw [sanitizeW, if_neg h]

/-- The height clamp yields exactly 14 below the test threshold. -/
theorem sanitizeH_of_lt {h : ℚ} (hh : h < 10) : sanitizeH h = 14 := by
  rw [sanitizeH, if_pos hh]
  exact max_eq_right (by linarith)

/-- The height clamp leaves values at or above the threshold unchanged. -/
theorem sanitizeH_of_ge {h : ℚ} (hh : ¬ h < 10) : sanitizeH h = h := by
  rw [sanitizeH, if_neg hh]

/-- Sanitized widths are at least 20. -/
theorem sanitizeW_ge_20 (w : ℚ) : 20 ≤ sanitizeW w := by
  rw [sanitizeW]
  split_ifs with hw
  · exact le_trans (by norm_num) (le_max_right w 40)
  · linarith

/-- Sanitized heights are at least 10. -/
theorem sanitizeH_ge_10 (h : ℚ) : 10 ≤ sanitizeH h := by
  rw [sanitizeH]
  split_ifs with hh
  · exact le_trans (by norm_num) (le_max_right h 14)
  · linarith

/-- The x coordinate of the emitted widget is the converted x in both
branches of the classification. -/
theorem mapField_x (pageHeight : ℚ) (ok : Bool) (f : FieldDesc) :
    (mapField pageHeight ok f).x = x_pt f := by
  rw [mapField]
  split_ifs <;> rfl

/-- The y coordinate of the emitted widget is the flipped y in both
branches of the classification. -/
theorem mapField_y (pageHeight : ℚ) (ok : Bool) (f : FieldDesc) :
    (mapField pageHeight ok f).y = y_pt pageHeight f := by
  rw [mapField]
  split_ifs <;> rfl

/-! Claim theorems. -/

/-- Claim C1: for every field descriptor the mapper converts the box as
x times 0.75 for the abscissa, width times 0.75 and height times 0.75
for the extent, and flips the vertical axis exactly once as
page height minus y times 0.75 minus the converted height; on the bbox
x 100, y 50, width 200, height 20 with page height 841.89 this gives
x 75, width 150, height 15 and y 789.39. -/
theorem c1_geometry_transform (pageHeight : ℚ) (ok : Bool) (f : FieldDesc) :
    (mapField pageHeight ok f).x = f.x * (0.75 : ℚ)
    ∧ (mapField pageHeight ok f).y
        = pageHeight - f.y * (0.75 : ℚ) - f.height * (0.75 : ℚ)
    ∧ w_pt f = f.width * (0.75 : ℚ)
    ∧ h_pt f = f.height * (0.75 : ℚ)
    ∧ mapField (841.89 : ℚ) ok fC1 =
        { name := "field1", kind := WidgetKind.text, x := 75,
          y := (789.39 : ℚ), width := 150, height := 15, styled := ok } := by
  refine ⟨?_, ?_, ?_, ?_, ?_⟩
  · rw [mapField_x, x_pt, CSS_PX_TO_PT]
    norm_num
  · rw [mapField_y, y_pt, h_pt, CSS_PX_TO_PT]
    norm_num
  · rw [w_pt, CSS_PX_TO_PT]
    norm_num
  · rw [h_pt, CSS_PX_TO_PT]
    norm_num
  · have h1 : ¬ (fC1.tag = "input" ∧ fC1.typ = "checkbox") := by decide
    have hx : x_pt fC1 = 75 := by norm_num [x_pt, fC1, CSS_PX_TO_PT]
    have hy : y_pt (841.89 : ℚ) fC1 = (789.39 : ℚ) := by
      norm_num [y_pt, h_pt, fC1, CSS_PX_TO_PT]
    have hwv : w_pt fC1 = 150 := by norm_num [w_pt, fC1, CSS_PX_TO_PT]
    have hhv : h_pt fC1 = 15 := by norm_num [h_pt, fC1, CSS_PX_TO_PT]
    have hsw : sanitizeW (w_pt fC1) = 150 := by
      rw [hwv, sanitizeW_of_ge (by norm_num)]
    have hsh : sanitizeH (h_pt fC1) = 15 := by
      rw [hhv, sanitizeH_of_ge (by norm_num)]
    rw [mapField, if_neg h1, hx, hy, hsw, hsh]
    rfl

/-- Claim C2: the minimum-size policy has two distinct thresholds: a
converted width strictly below 20 becomes exactly 40 and is otherwise
unchanged, a converted height strictly below 10 becomes exactly 14 and is
otherwise unchanged; width 15 becomes 40 while width 25 stays 25. -/
theorem c2_min_size_policy (w h : ℚ) :
    sanitizeW w = (if w < 20 then 40 else w)
    ∧ sanitizeH h = (if h < 10 then 14 else h)
    ∧ sanitizeW 15 = 40
    ∧ sanitizeW 25 = 25 := by
  refine ⟨?_, ?_, by decide, by decide⟩
  · split_ifs with hw
    · exact sanitizeW_of_lt hw
    · exact sanitizeW_of_ge hw
  · split_ifs with hh
    · exact sanitizeH_of_lt hh
    · exact sanitizeH_of_ge hh

/-- Claim C3: a field is mapped to a checkbox widget exactly when its tag
is input and its type is checkbox, in which case the widget is a square of
side min of the post-clamp width and height; every other combination gives
a text widget spanning the full post-clamp rectangle. -/
theorem c3_checkbox_classification (pageHeight : ℚ) (ok : Bool)
    (f : FieldDesc) :
    ((mapField pageHeight ok f).kind = WidgetKind.checkbox ↔
      (f.tag = "input" ∧ f.typ = "checkbox"))
    ∧ ((f.tag = "input" ∧ f.typ = "checkbox") →
        (mapField pageHeight ok f).width
            = min (sanitizeW (w_pt f)) (sanitizeH (h_pt f))
        ∧ (mapField pageHeight ok f).height
            = min (sanitizeW (w_pt f)) (sanitizeH (h_pt f)))
    ∧ (¬ (f.tag = "input" ∧ f.typ = "checkbox") →
        (mapField pageHeight ok f).kind = WidgetKind.text
        ∧ (mapField pageHeight ok f).width = sanitizeW (w_pt f)
        ∧ (mapField pageHeight ok f).height = sanitizeH (h_pt f)) := by
  rw [mapField]
  split_ifs with hc
  · exact ⟨⟨fun _ => hc, fun _ => rfl⟩, fun _ => ⟨rfl, rfl⟩,
      fun hn => absurd hc hn⟩
  · refine ⟨⟨fun habs => absurd habs ?_, fun hyes => absurd hyes hc⟩,
      fun hyes => absurd hyes hc, fun _ => ⟨rfl, rfl, rfl⟩⟩
    simp

/-- Claim C3 witness: a checked sample checkbox control is classified as a
checkbox and a sample select control as a text widget. -/
theorem c3_checkbox_classification_witness :
    (mapField 842 true cbField).kind = WidgetKind.checkbox
    ∧ (mapField 842 true selField).kind = WidgetKind.text :=
  ⟨(c3_checkbox_classification 842 true cbField).1.mpr (by decide),
   ((c3_checkbox_classification 842 true selField).2.2 (by decide)).1⟩

/-- Claim C4: the overlay holds exactly one widget per field, in input
order, whatever the styled-construction oracle says and whatever the boxes
or names are: position i of the output is exactly the mapped field at
position i of the input. -/
theorem c4_one_widget_per_field (pageHeight : ℚ) (ok : FieldDesc → Bool)
    (fields : List FieldDesc) :
    (makeOverlay pageHeight ok fields).length = fields.length
    ∧ ∀ i : Nat, (makeOverlay pageHeight ok fields).get? i
        = (fields.get? i).map fun f => mapField pageHeight (ok f) f := by
  constructor
  · simp [makeOverlay]
  · intro i
    simp [makeOverlay]

/-- Claim C6 counterexample: the claim that every emitted widget is at
least 40 points wide and 14 points tall fails on a textarea of 40 by 16
pixels, whose converted width 30 and height 12 pass the minimum-size
tests untouched and stay below 40 and 14. -/
theorem c6_counterexample :
    (mapField 842 true fWide).width = 30
    ∧ (mapField 842 true fWide).width < 40
    ∧ (mapField 842 true fWide).height = 12
    ∧ (mapField 842 true fWide).height < 14 := by
  have h1 : ¬ (fWide.tag = "input" ∧ fWide.typ = "checkbox") := by decide
  have hwv : w_pt fWide = 30 := by norm_num [w_pt, fWide, CSS_PX_TO_PT]
  have hhv : h_pt fWide = 12 := by norm_num [h_pt, fWide, CSS_PX_TO_PT]
  have hsw : sanitizeW (w_pt fWide) = 30 := by
    rw [hwv, sanitizeW_of_ge (by norm_num)]
  have hsh : sanitizeH (h_pt fWide) = 12 := by
    rw [hhv, sanitizeH_of_ge (by norm_num)]
  rw [mapField, if_neg h1]
  refine ⟨hsw, ?_, hsh, ?_⟩
  · rw [hsw]; norm_num
  · rw [hsh]; norm_num

/-- Claim C6 amended: for every field descriptor, including zero-size
boxes, the emitted widget never has a zero or negative dimension; both
dimensions are at least 10 points, a text widget is moreover at least 20
points wide, and 40 and 14 points are only the replacement values used
when a converted dimension falls below 20 and 10 points respectively. -/
theorem c6_amended_positive_bounds (pageHeight : ℚ) (ok : Bool)
    (f : FieldDesc) :
    10 ≤ (mapField pageHeight ok f).width
    ∧ 10 ≤ (mapField pageHeight ok f).height
    ∧ ((mapField pageHeight ok f).kind = WidgetKind.text →
        20 ≤ (mapField pageHeight ok f).width)
    ∧ 0 < (mapField pageHeight ok f).width
    ∧ 0 < (mapField pageHeight ok f).height := by
  have hW : 20 ≤ sanitizeW (w_pt f) := sanitizeW_ge_20 _
  have hH : 10 ≤ sanitizeH (h_pt f) := sanitizeH_ge_10 _
  rw [mapField]
  split_ifs with hc
  · have hmin : 10 ≤ min (sanitizeW (w_pt f)) (sanitizeH (h_pt f)) :=
      le_min (by linarith) hH
    exact ⟨hmin, hmin, fun habs => absurd habs (by simp),
      by linarith, by linarith⟩
  · exact ⟨by linarith, hH, fun _ => hW, by linarith, by linarith⟩

/-- Claim C6 amended witness: the zero-size input yields a 40 by 14
widget, so both bounds hold on it. -/
theorem c6_amended_positive_bounds_witness :
    20 ≤ (mapField 842 true fZero).width
    ∧ 0 < (mapField 842 true fZero).height :=
  ⟨(c6_amended_positive_bounds 842 true fZero).2.2.1 (by decide),
   (c6_amended_positive_bounds 842 true fZero).2.2.2.2⟩

/-- Claim C9: for every field descriptor with non-negative pixel box, the
post-policy dimensions are at least 20 and 10 points, the width is
exactly 40 when the scaled width is below 20 and is the scaled width
otherwise; a checkbox widget, whose side is the min of the two post-policy
dimensions, is at least 10 points and square, and no emitted widget has a
zero or negative dimension. -/
theorem c9_post_policy_bounds (pageHeight : ℚ) (ok : Bool) (f : FieldDesc)
    (hw : 0 ≤ f.width) (hh : 0 ≤ f.height) :
    20 ≤ sanitizeW (w_pt f)
    ∧ 10 ≤ sanitizeH (h_pt f)
    ∧ (w_pt f < 20 → sanitizeW (w_pt f) = 40)
    ∧ (20 ≤ w_pt f → sanitizeW (w_pt f) = w_pt f)
    ∧ ((mapField pageHeight ok f).kind = WidgetKind.checkbox →
        10 ≤ (mapField pageHeight ok f).width
        ∧ (mapField pageHeight ok f).width = (mapField pageHeight ok f).height)
    ∧ 0 < (mapField pageHeight ok f).width
    ∧ 0 < (mapField pageHeight ok f).height := by
  have hW : 20 ≤ sanitizeW (w_pt f) := sanitizeW_ge_20 _
  have hH : 10 ≤ sanitizeH (h_pt f) := sanitizeH_ge_10 _
  refine ⟨hW, hH, fun hlt => sanitizeW_of_lt hlt,
    fun hge => sanitizeW_of_ge (not_lt.mpr hge), ?_, ?_, ?_⟩
  · rw [mapField]
    split_ifs with hc
    · intro _
      exact ⟨le_min (by linarith) hH, rfl⟩
    · intro habs
      exact absurd habs (by simp)
  · rw [mapField]
    split_ifs with hc
    · have : 10 ≤ min (sanitizeW (w_pt f)) (sanitizeH (h_pt f)) :=
        le_min (by linarith) hH
      linarith
    · linarith
  · rw [mapField]
    split_ifs with hc
    · have : 10 ≤ min (sanitizeW (w_pt f)) (sanitizeH (h_pt f)) :=
        le_min (by linarith) hH
      linarith
    · linarith

/-- Claim C9 witness: the sample 16 by 16 pixel checkbox has non-negative
box and its square widget side is at least 10 points. -/
theorem c9_post_policy_bounds_witness :
    10 ≤ (mapField 842 true cbField).width
    ∧ 0 < (mapField 842 true cbField).height :=
  ⟨((c9_post_policy_bounds 842 true cbField (by decide) (by decide)).2.2.2.2.1
      (by decide)).1,
   (c9_post_policy_bounds 842 true cbField (by decide) (by decide)).2.2.2.2.2.2⟩

/-- Claim C10: the mapper never clamps positions to the page: whenever the
scaled top edge of a field lies beyond one page height, the flipped y
coordinate is negative and the widget is still emitted at that off-page
position in the overlay. -/
theorem c10_off_page_not_clamped (pageHeight : ℚ) (ok : FieldDesc → Bool)
    (fields : List FieldDesc) (i : Nat) (hi : i < fields.length)
    (hoff : pageHeight <
      (fields.get ⟨i, hi⟩).y * CSS_PX_TO_PT + h_pt (fields.get ⟨i, hi⟩)) :
    ∃ w, (makeOverlay pageHeight ok fields).get? i = some w
      ∧ w.y < 0
      ∧ w.y = pageHeight - (fields.get ⟨i, hi⟩).y * CSS_PX_TO_PT
          - h_pt (fields.get ⟨i, hi⟩) := by
  refine ⟨mapField pageHeight (ok (fields.get ⟨i, hi⟩)) (fields.get ⟨i, hi⟩),
    ?_, ?_, ?_⟩
  · rw [makeOverlay, List.get?_map, List.get?_eq_get hi, Option.map_some']
  · rw [mapField_y, y_pt]
    linarith
  · rw [mapField_y, y_pt]

/-- Claim C10 witness: a field whose top edge is at 1200 CSS pixels lands
at y = -73 on a page of height 842 and is still emitted. -/
theorem c10_off_page_not_clamped_witness :
    ∃ w, (makeOverlay 842 (fun _ => true) [fOff]).get? 0 = some w
      ∧ w.y < 0 := by
  obtain ⟨w, h1, h2, _⟩ :=
    c10_off_page_not_clamped 842 (fun _ => true) [fOff] 0 (by decide)
      (by norm_num [fOff, h_pt, CSS_PX_TO_PT])
  exact ⟨w, h1, h2⟩

/-- Positions in the extractor output: the descriptor at position i of the
output is built from the control at position i of the input with ordinal
equal to the starting index plus i. -/
theorem extractFrom_get (els : List RawControl) : ∀ (k i : Nat),
    (extractFrom k els).get? i
      = (els.get? i).map fun el => mkFieldDesc (k + i) el := by
  induction els with
  | nil =>
    intro k i
    simp [extractFrom]
  | cons el rest ih =>
    intro k i
    cases i with
    | zero => simp [extractFrom]
    | succ j =>
      have e : k + 1 + j = k + (j + 1) := by omega
      have step : (extractFrom k (el :: rest)).get? (j + 1)
          = (extractFrom (k + 1) rest).get? j := rfl
      rw [step, ih (k + 1) j, e]
      rfl

/-- Claim C8: the extractor resolves the name of a discovered control by
trying the explicit name attribute, then the id, then the placeholder, and
synthesizes tag underscore ordinal from the 0-based discovery ordinal when
all three are empty. -/
theorem c8_name_resolution (els : List RawControl) (i : Nat)
    (el : RawControl) (hel : els.get? i = some el) :
    ∃ fd, (extractFields els).get? i = some fd
      ∧ (el.nameAttr ≠ "" → fd.name = el.nameAttr)
      ∧ (el.nameAttr = "" → el.idAttr ≠ "" → fd.name = el.idAttr)
      ∧ (el.nameAttr = "" → el.idAttr = "" → el.placeholder ≠ "" →
          fd.name = el.placeholder)
      ∧ (el.nameAttr = "" → el.idAttr = "" → el.placeholder = "" →
          fd.name = el.tag ++ "_" ++ toString i) := by
  refine ⟨mkFieldDesc i el, ?_, ?_, ?_, ?_, ?_⟩
  · rw [extractFields, extractFrom_get els 0 i, hel]
    simp
  · intro h1
    simp [mkFieldDesc, resolveName, h1]
  · intro h1 h2
    simp [mkFieldDesc, resolveName, h1, h2]
  · intro h1 h2 h3
    simp [mkFieldDesc, resolveName, h1, h2, h3]
  · intro h1 h2 h3
    simp [mkFieldDesc, resolveName, h1, h2, h3]

/-- Claim C8 witness: the blank input at discovery ordinal 4 of the sample
control list is named input_4. -/
theorem c8_name_resolution_witness :
    ∃ fd, (extractFields demoControls).get? 4 = some fd
      ∧ fd.name = "input_4" := by
  obtain ⟨fd, h1, _, _, _, h5⟩ :=
    c8_name_resolution demoControls 4 rcBlank (by decide)
  refine ⟨fd, h1, ?_⟩
  rw [h5 rfl rfl rfl]
  rfl

/-- Python indexing of a non-empty overlay at the clamped index is a plain
in-range list lookup. -/
theorem pyGet_min_eq (l : List Page) (h : 0 < l.length) (k : Nat) :
    pyGet l (min (k : Int) ((l.length : Int) - 1))
      = l.get? (min k (l.length - 1)) := by
  have hcast : ((min k (l.length - 1) : Nat) : Int)
      = min (k : Int) ((l.length : Int) - 1) := by
    have h1 : (((l.length - 1 : Nat)) : Int) = (l.length : Int) - 1 := by
      omega
    rw [Nat.cast_min, h1]
  have hge : ¬ (min (k : Int) ((l.length : Int) - 1) < 0) := by
    rw [← hcast]
    exact not_lt.mpr (Int.natCast_nonneg _)
  rw [pyGet, if_neg hge]
  congr 1
  omega

/-- Loop invariant of merge_pdfs: with a non-empty overlay, merging from
running index k never fails, yields one output page per base page, and
the page at offset j is the base page at offset j composited with the
overlay page at the clamped index min (k + j) (page count - 1). -/
theorem mergePages_spec (overlay : List Page) (hov : 0 < overlay.length) :
    ∀ (bs : List Page) (k : Nat), ∃ out,
      mergePages overlay k bs = some out
      ∧ out.length = bs.length
      ∧ ∀ j : Nat, out.get? j = (bs.get? j).bind fun bp =>
          (overlay.get? (min (k + j) (overlay.length - 1))).map
            (compositePage bp) := by
  intro bs
  induction bs with
  | nil =>
    intro k
    exact ⟨[], rfl, rfl, fun j => by simp⟩
  | cons p rest ih =>
    intro k
    obtain ⟨out, hout, hlen, hget⟩ := ih (k + 1)
    have hmin : min k (overlay.length - 1) < overlay.length :=
      Nat.lt_of_le_of_lt (Nat.min_le_right _ _) (Nat.sub_lt hov Nat.one_pos)
    have hsome : overlay.get? (min k (overlay.length - 1))
        = some (overlay.get ⟨min k (overlay.length - 1), hmin⟩) :=
      List.get?_eq_get hmin
    refine ⟨compositePage p (overlay.get ⟨min k (overlay.length - 1), hmin⟩)
        :: out, ?_, ?_, ?_⟩
    · rw [mergePages, pyGet_min_eq overlay hov k, hsome, hout]
      rfl
    · simp [hlen]
    · intro j
      cases j with
      | zero =>
        have e0 : k + 0 = k := rfl
        simp only [List.get?, e0, hsome, Option.some_bind, Option.map_some']
      | succ n =>
        have e : k + 1 + n = k + (n + 1) := by omega
        have step : (compositePage p
            (overlay.get ⟨min k (overlay.length - 1), hmin⟩) :: out).get? (n + 1)
            = out.get? n := rfl
        rw [step, hget n, e]
        rfl

/-- Claim C5 counterexample: an overlay with zero pages has fewer pages
than a one-page base, yet the merge fails (the source would raise an
IndexError reading overlay.pages[-1]), so the claim quantified over every
overlay with fewer pages than the base does not hold as stated. -/
theorem c5_counterexample :
    ([] : List Page).length < [pgB1].length
    ∧ mergePdfs [pgB1] [] = none :=
  ⟨by decide, rfl⟩

/-- Claim C5 amended: for every base document with at least one page and
every overlay document with at least one page but fewer pages than the
base, the merge never fails, yields exactly one output page per base
page, composites the overlay page at the clamped index
min j (overlay page count - 1) onto base page j, and the composited page
keeps the width and height of its base page. -/
theorem c5_last_page_reuse (base overlay : List Page)
    (hov : 0 < overlay.length) (hb : 0 < base.length)
    (hlt : overlay.length < base.length) :
    ∃ out, mergePdfs base overlay = some out
      ∧ out.length = base.length
      ∧ (∀ j : Nat, out.get? j = (base.get? j).bind fun bp =>
          (overlay.get? (min j (overlay.length - 1))).map (compositePage bp))
      ∧ (∀ p q : Page, (compositePage p q).width = p.width
          ∧ (compositePage p q).height = p.height) := by
  obtain ⟨out, hout, hlen, hget⟩ := mergePages_spec overlay hov base 0
  refine ⟨out, hout, hlen, ?_, fun p q => ⟨rfl, rfl⟩⟩
  intro j
  have e : (0 : Nat) + j = j := Nat.zero_add j
  rw [hget j, e]

/-- Claim C5 witness: a three-page base merged with a one-page overlay
yields a three-page document. -/
theorem c5_last_page_reuse_witness :
    ∃ out, mergePdfs [pgB1, pgB2, pgB3] [pgOv] = some out
      ∧ out.length = 3 := by
  obtain ⟨out, h1, h2, _, _⟩ :=
    c5_last_page_reuse [pgB1, pgB2, pgB3] [pgOv] (by decide) (by decide)
      (by decide)
  exact ⟨out, h1, h2⟩

/-- Claim C7: the file-level merge reads the base and overlay documents
and writes only the separate output path, so after it returns the
documents stored at the base and overlay paths are unchanged (hence have
the same page counts and page contents as before), and the merged
document sits at the output path only. -/
theorem c7_merge_preserves_inputs (fs : String → Option (List Page))
    (basePath overlayPath finalPath : String)
    (baseDoc overlayDoc merged : List Page)
    (hb : fs basePath = some baseDoc) (ho : fs overlayPath = some overlayDoc)
    (hm : mergePdfs baseDoc overlayDoc = some merged)
    (hbf : basePath ≠ finalPath) (hof : overlayPath ≠ finalPath) :
    ∃ fs2, mergeFiles fs basePath overlayPath finalPath = some fs2
      ∧ fs2 basePath = fs basePath
      ∧ fs2 overlayPath = fs overlayPath
      ∧ fs2 finalPath = some merged := by
  refine ⟨Function.update fs finalPath (some merged), ?_, ?_, ?_, ?_⟩
  · rw [mergeFiles, hb, ho]
    show Option.map (fun out => Function.update fs finalPath (some out))
        (mergePdfs baseDoc overlayDoc) = _
    rw [hm, Option.map_some']
  · exact Function.update_noteq hbf _ _
  · exact Function.update_noteq hof _ _
  · exact Function.update_same _ _ _

/-- Claim C7 witness: on the sample filesystem, merging the three-page
base with the one-page overlay into the final path leaves the documents
at the base and overlay paths untouched. -/
theorem c7_merge_preserves_inputs_witness :
    ∃ fs2, mergeFiles demoFS "output/base_render.pdf" "output/overlay.pdf"
        "output/final_fill.pdf" = some fs2
      ∧ fs2 "output/base_render.pdf" = demoFS "output/base_render.pdf"
      ∧ fs2 "output/overlay.pdf" = demoFS "output/overlay.pdf" := by
  obtain ⟨fs2, h1, h2, h3, _⟩ :=
    c7_merge_preserves_inputs demoFS "output/base_render.pdf"
      "output/overlay.pdf" "output/final_fill.pdf"
      [pgB1, pgB2, pgB3] [pgOv]
      [compositePage pgB1 pgOv, compositePage pgB2 pgOv,
        compositePage pgB3 pgOv]
      rfl rfl rfl (by decide) (by decide)
  exact ⟨fs2, h1, h2, h3⟩

end HtmlToPdf
